import Mathlib

/-!
Shallow embedding of the payment reconciliation engine
(`src/yookassa_service.py`, with the `PaymentStatus` enum from
`src/service.py`): data model, status mapper, webhook signature
verifier, payment creation, reconciliation (`check_payment`) and the
webhook handler (`handle_webhook`).

External collaborators (the YooKassa gateway client, the user table and
the subscription grantor of `UserService`, the HMAC primitive of the
standard library, and the process settings) are passed in as explicit
parameters, exactly at the call boundaries the Python code uses them.
An `.error` result of an operation models a raised exception: the store
component is returned only on `.ok`, reflecting that nothing was
flushed to the session when an exception propagates.
-/

namespace YooKassa

/-- `PaymentStatus` enum from `src/service.py` (also used by
`models.PaymentStatus` in `src/yookassa_service.py`): the four string
values of the payment lifecycle. -/
inductive PaymentStatus where
  | PENDING
  | WAITING_FOR_CAPTURE
  | SUCCEEDED
  | CANCELED
deriving DecidableEq, Repr

/-- The `.value` string of each `PaymentStatus` member, as declared in
`src/service.py` lines 21-25. -/
def PaymentStatus.value : PaymentStatus → String
  | .PENDING => "pending"
  | .WAITING_FOR_CAPTURE => "waiting_for_capture"
  | .SUCCEEDED => "succeeded"
  | .CANCELED => "canceled"

/-- Python's `PaymentStatus(status)` value lookup: returns the member
whose `.value` equals the string, or `none` where Python raises
`ValueError`. -/
def paymentStatusOfValue? (s : String) : Option PaymentStatus :=
  if s = "pending" then some .PENDING
  else if s = "waiting_for_capture" then some .WAITING_FOR_CAPTURE
  else if s = "succeeded" then some .SUCCEEDED
  else if s = "canceled" then some .CANCELED
  else none

/-- Modelled from the spec: `SubscriptionTier` enum of `models.py`
(imported by both source files but not itself under `src/`), with the
members {FREE, PRO, ULTRA} named in spec §3. -/
inductive SubscriptionTier where
  | FREE
  | PRO
  | ULTRA
deriving DecidableEq, Repr

/-- Modelled from the spec: the `.value` strings of `SubscriptionTier`,
lower-case as used by `settings.get_tier_price(tier.value)` and the
`"free"` default in `src/service.py` line 83. -/
def SubscriptionTier.value : SubscriptionTier → String
  | .FREE => "free"
  | .PRO => "pro"
  | .ULTRA => "ultra"

/-- Python's `SubscriptionTier(s)` value lookup (`src/yookassa_service.py`
line 163): the member whose `.value` equals the string, `none` where
Python raises `ValueError`. -/
def subscriptionTierOfValue? (s : String) : Option SubscriptionTier :=
  if s = "free" then some .FREE
  else if s = "pro" then some .PRO
  else if s = "ultra" then some .ULTRA
  else none

/-- `_map_status` from `src/yookassa_service.py` lines 21-27: try the
enum value lookup; on `ValueError` return `WAITING_FOR_CAPTURE` for the
literal `"waiting_for_capture"` (dead branch: the lookup already accepts
it) and `PENDING` for everything else. -/
def _map_status (status : String) : PaymentStatus :=
  match paymentStatusOfValue? status with
  | some st => st
  | none =>
    if status = "waiting_for_capture" then .WAITING_FOR_CAPTURE
    else .PENDING

/-- Persisted `Payment` record as constructed in
`src/yookassa_service.py` lines 119-127 and mutated in lines 165-169.
Timestamps are modelled as naturals. -/
structure Payment where
  user_id : Nat
  yookassa_payment_id : String
  subscription_tier : String
  amount : Int
  status : PaymentStatus
  description : String
  confirmation_url : Option String
  processed_at : Option Nat := none
  error_message : Option String := none
deriving DecidableEq, Repr

/-- The relevant process settings from the `config` module (external to
`src/`): the two tier prices in rubles and the webhook secret.  An
unconfigured secret is the empty string (Python falsiness of
`settings.yookassa_webhook_secret`). -/
structure Settings where
  pro_monthly_price : Int
  ultra_monthly_price : Int
  yookassa_webhook_secret : String
deriving Repr

/-- `_get_tier_price_rubles` from `src/yookassa_service.py` lines 38-44:
configured prices for PRO and ULTRA, 0 otherwise. -/
def _get_tier_price_rubles (settings : Settings) (tier : SubscriptionTier) : Int :=
  if tier = .PRO then settings.pro_monthly_price
  else if tier = .ULTRA then settings.ultra_monthly_price
  else 0

/-- Result of `verify_webhook_signature`: the boolean outcome together
with whether the development-mode "secret not configured" warning of
line 57 was logged. -/
structure VerifyResult where
  valid : Bool
  warnedNoSecret : Bool
deriving DecidableEq, Repr

/-- `verify_webhook_signature` from `src/yookassa_service.py` lines
46-83.  `hmacHex secret body` stands for the standard library's
`hmac.new(secret, body, sha256).hexdigest()` (an external primitive,
passed in as a parameter); `body` is the canonical JSON serialization of
the payload, which the caller supplies already serialized.  If the
secret is unconfigured (empty) the check is bypassed with a warning and
the function returns `True` (lines 56-58); otherwise the expected
digest is compared with the provided signature
(`hmac.compare_digest`, boolean-equivalent to string equality). -/
def verify_webhook_signature (hmacHex : String → String → String)
    (secret : String) (payloadBody : String) (signature : String) : VerifyResult :=
  if secret = "" then
    { valid := true, warnedNoSecret := true }
  else
    { valid := hmacHex secret payloadBody == signature, warnedNoSecret := false }

/-- Gateway record returned by `YooPayment.find_one`: the raw status
string and the optional cancellation reason
(`response.cancellation_details.reason`, collapsed to `none` when the
details object or the reason is absent, as in lines 168-169). -/
structure GatewayRecord where
  status : String
  cancellation_reason : Option String := none
deriving DecidableEq, Repr

/-- Gateway record returned by `YooPayment.create`: the remote id, the
raw initial status, the confirmation URL and the remote amount (present
in the real response but never read by `create_payment`). -/
structure CreateRecord where
  id : String
  status : String
  confirmation_url : String
  amount : Int := 0
deriving DecidableEq, Repr

/-- Exceptions raised by the engine.  `paymentNotFound` and
`invalidAmount` are the two `ValueError`s of `check_payment` and
`create_payment`; `gatewayError` models a failure of the YooKassa
client call (re-raised by the engine); `invalidTierValue` models the
`ValueError` of `SubscriptionTier(payment.subscription_tier)`;
`grantError` models an exception escaping
`UserService.upgrade_subscription`. -/
inductive SvcError where
  | paymentNotFound
  | invalidAmount (tierValue : String)
  | gatewayError (msg : String)
  | invalidTierValue (s : String)
  | grantError (msg : String)
deriving DecidableEq, Repr

/-- The external collaborators `check_payment` calls through, passed as
one environment: the gateway `find_one` lookup, the `User` table lookup
by id (a user is represented by its id), the subscription grantor
`UserService.upgrade_subscription(user, tier, duration_days)`, and the
wall clock `datetime.now(timezone.utc)`. -/
structure Env where
  find_one : String → Except String GatewayRecord
  findUser : Nat → Option Nat
  grant : Nat → SubscriptionTier → Nat → Except String Unit
  now : Nat

/-- The local payment store: the rows the SQLAlchemy session can reach,
looked up by `yookassa_payment_id`. -/
def findPayment (store : List Payment) (payment_id : String) : Option Payment :=
  store.find? (fun p => p.yookassa_payment_id == payment_id)

/-- Writing the mutated row back: every row correlating with
`payment_id` is replaced by the updated record. -/
def storeUpdate (store : List Payment) (payment_id : String) (p' : Payment) :
    List Payment :=
  store.map (fun p => if p.yookassa_payment_id == payment_id then p' else p)

/-- Python `str.capitalize()`: first character upper-cased, the rest
lower-cased (ASCII behaviour suffices for the tier values used). -/
def pyCapitalize (s : String) : String :=
  match s.toList with
  | [] => ""
  | c :: rest => String.mk (c.toUpper :: rest.map Char.toLower)

/-- The description string built by `create_payment` line 92. -/
def paymentDescription (tier : SubscriptionTier) (user_id : Nat) : String :=
  "Подписка " ++ pyCapitalize tier.value ++ " для пользователя " ++ toString user_id

/-- `create_payment` from `src/yookassa_service.py` lines 85-131.
`createResult` is the outcome of the `YooPayment.create` call (the
gateway client is an external boundary; a fresh idempotence key is
generated per call and passed to it, which the pure model elides as it
never influences the local record).  The price guard of lines 94-95
raises before the gateway call; on gateway failure the exception is
re-raised with no record persisted; on success the new `Payment` is
added to the session in the mapped initial status, with the amount
converted to kopecks locally (line 123) and the returned confirmation
URL. -/
def create_payment (settings : Settings)
    (createResult : Except String CreateRecord)
    (store : List Payment) (user_id : Nat) (tier : SubscriptionTier) :
    Except SvcError (List Payment × Payment) :=
  let amount_rubles := _get_tier_price_rubles settings tier
  let description := paymentDescription tier user_id
  if amount_rubles ≤ 0 then
    .error (.invalidAmount tier.value)
  else
    match createResult with
    | .error e => .error (.gatewayError e)
    | .ok response =>
      let payment : Payment :=
        { user_id := user_id
          yookassa_payment_id := response.id
          subscription_tier := tier.value
          amount := amount_rubles * 100
          status := _map_status response.status
          description := description
          confirmation_url := some response.confirmation_url }
      .ok (store ++ [payment], payment)

/-- `check_payment` from `src/yookassa_service.py` lines 133-172.
Raises `paymentNotFound` when no row correlates (line 143).  A row
already SUCCEEDED is returned as-is with no gateway call and no grant
(lines 146-147).  Otherwise the gateway record is re-fetched (a failure
is re-raised, line 153); if the mapped status is SUCCEEDED and the
prior status was not, the user row is looked up and — only when it
exists — the grantor is invoked with the parsed tier for 30 days
(lines 158-163), any exception there propagating before the row is
mutated; finally the row's status, `processed_at` and `error_message`
are updated and flushed (lines 165-171). -/
def check_payment (env : Env) (store : List Payment) (payment_id : String) :
    Except SvcError (List Payment × Payment) :=
  match findPayment store payment_id with
  | none => .error .paymentNotFound
  | some payment =>
    if payment.status = .SUCCEEDED then
      .ok (store, payment)
    else
      match env.find_one payment_id with
      | .error e => .error (.gatewayError e)
      | .ok response =>
        let new_status := _map_status response.status
        let grantStep : Except SvcError Unit :=
          if new_status = .SUCCEEDED ∧ payment.status ≠ .SUCCEEDED then
            match env.findUser payment.user_id with
            | none => .ok ()
            | some user =>
              match subscriptionTierOfValue? payment.subscription_tier with
              | none => .error (.invalidTierValue payment.subscription_tier)
              | some tier =>
                match env.grant user tier 30 with
                | .error e => .error (.grantError e)
                | .ok _ => .ok ()
          else .ok ()
        match grantStep with
        | .error e => .error e
        | .ok _ =>
          let payment' : Payment :=
            { payment with
              status := new_status
              processed_at := some env.now
              error_message := response.cancellation_reason }
          .ok (storeUpdate store payment_id payment', payment')

/-- Webhook payload as read by `handle_webhook`: only the nested
`object.id` is consulted (`payload.get("object") or \x7b\x7d`, then
`.get("id")`).  `object_id` is `none` when the `object` key or its `id`
key is absent. -/
structure WebhookPayload where
  object_id : Option String := none
  body : String := ""
deriving DecidableEq, Repr

/-- The signature rejection test of `handle_webhook` line 187:
`if signature and not self.verify_webhook_signature(payload, signature)`.
Python truthiness of `signature`: `None` and the empty string both skip
verification. -/
def webhookSigRejected (hmacHex : String → String → String) (secret : String)
    (payload : WebhookPayload) (signature : Option String) : Bool :=
  match signature with
  | none => false
  | some s =>
    s ≠ "" ∧ (verify_webhook_signature hmacHex secret payload.body s).valid = false

/-- The gateway payment id extracted by `handle_webhook` lines 191-192:
`(payload.get("object") or \x7b\x7d).get("id")`, with the empty string
standing for the falsy values Python rejects at line 193. -/
def webhookPaymentId (payload : WebhookPayload) : String :=
  payload.object_id.getD ""

/-- `handle_webhook` from `src/yookassa_service.py` lines 174-201.
A supplied signature is verified only when truthy (non-empty); on
verification failure the webhook is ignored.  The gateway payment id is
extracted from the payload's nested object; a missing or falsy (empty)
id yields `none`.  Otherwise the call delegates to `check_payment`, any
exception from which is caught and converted to `none` (lines 197-201).
The returned pair is the store after the call (unchanged on every
`none` outcome) and the optional payment. -/
def handle_webhook (hmacHex : String → String → String) (secret : String)
    (env : Env) (store : List Payment)
    (payload : WebhookPayload) (signature : Option String) :
    List Payment × Option Payment :=
  if webhookSigRejected hmacHex secret payload signature then
    (store, none)
  else
    let payment_id := webhookPaymentId payload
    if payment_id = "" then
      (store, none)
    else
      match check_payment env store payment_id with
      | .error _ => (store, none)
      | .ok (store', p) => (store', some p)

/-! Concrete fixtures used by witness and counterexample theorems. -/

/-- A concrete stand-in for the HMAC-SHA256 hexdigest primitive: any
function of secret and body works for the structural properties. -/
def hmC : String → String → String := fun secret body => secret ++ "|" ++ body

/-- A pending PRO payment row. -/
def pPending : Payment :=
  { user_id := 7
    yookassa_payment_id := "p1"
    subscription_tier := "pro"
    amount := 50000
    status := .PENDING
    description := "d"
    confirmation_url := some "https://pay.example/confirm" }

/-- The same row already in SUCCEEDED. -/
def pSucceeded : Payment := { pPending with status := .SUCCEEDED }

/-- The same row in CANCELED. -/
def pCanceled : Payment := { pPending with status := .CANCELED }

/-- A row whose gateway id is the empty string. -/
def pEmptyId : Payment := { pPending with yookassa_payment_id := "" }

/-- Environment whose gateway reports "pending". -/
def envBase : Env :=
  { find_one := fun _ => .ok { status := "pending" }
    findUser := fun _ => some 7
    grant := fun _ _ _ => .ok ()
    now := 42 }

/-- Environment whose gateway reports "succeeded". -/
def envSucceeded : Env :=
  { envBase with find_one := fun _ => .ok { status := "succeeded" } }

/-- Gateway reports "succeeded" and every grant attempt raises. -/
def envGrantFail : Env :=
  { envSucceeded with grant := fun _ _ _ => .error "grant failed" }

/-- Gateway reports "succeeded", the user row is missing, and any grant
attempt would raise. -/
def envNoUser : Env :=
  { envGrantFail with findUser := fun _ => none }

end YooKassa

namespace YooKassa

/-- Setting one entry of a list to a different element changes the list. -/
theorem set_ne_of_get_ne {α : Type} (l : List α) (i : Nat) (c d : α)
    (hg : l.get? i = some d) (hne : c ≠ d) : l.set i c ≠ l := by
  intro h
  have hlt : i < l.length := by
    by_contra hge
    rw [List.get?_eq_none.2 (Nat.le_of_not_lt hge)] at hg
    exact Option.noConfusion hg
  have h2 : (l.set i c).get? i = some c := List.get?_set_eq_of_lt c hlt
  rw [h, hg] at h2
  exact hne (Option.some.inj h2).symm

/-- C4: the status mapper is total and pure: the four known literals map
to their enum members, every other string maps to PENDING, and the only
inputs mapped to SUCCEEDED or CANCELED are their own literals. -/
theorem mapStatus_total_spec (s : String) :
    _map_status s =
      (if s = "pending" then PaymentStatus.PENDING
       else if s = "waiting_for_capture" then .WAITING_FOR_CAPTURE
       else if s = "succeeded" then .SUCCEEDED
       else if s = "canceled" then .CANCELED
       else .PENDING) ∧
    (_map_status s = .SUCCEEDED ↔ s = "succeeded") ∧
    (_map_status s = .CANCELED ↔ s = "canceled") := by
  by_cases h1 : s = "pending" <;> by_cases h2 : s = "waiting_for_capture" <;>
    by_cases h3 : s = "succeeded" <;> by_cases h4 : s = "canceled" <;>
    simp_all [_map_status, paymentStatusOfValue?]

/-- C7: with an unconfigured (empty) webhook secret, verification is
bypassed: it returns `True` for every payload body and every provided
signature, and logs the development-mode warning. -/
theorem verify_unconfigured_bypass (hmacHex : String → String → String)
    (body signature : String) :
    verify_webhook_signature hmacHex "" body signature =
      { valid := true, warnedNoSecret := true } := rfl

/-- C6 counterexample: with an unconfigured secret every signature is
accepted, so the signature "aa" verifies as valid and so does the
signature obtained from it by flipping its first character to 'b' —
refuting "flipping one character of a valid signature always makes
verification return false" as a statement over all secrets. -/
theorem verify_flip_cex :
    (verify_webhook_signature hmC "" "x" "aa").valid = true ∧
    "aa".toList.get? 0 = some 'a' ∧ ('b' : Char) ≠ 'a' ∧
    (verify_webhook_signature hmC "" "x"
        (String.mk ("aa".toList.set 0 'b'))).valid = true := by
  exact ⟨rfl, rfl, by decide, rfl⟩

/-- C6 amended: for every configured (non-empty) secret, verification is
deterministic (a pure function of its inputs), and flipping one
character of a signature that verifies as valid always makes
verification return false. -/
theorem verify_deterministic_flip (hmacHex : String → String → String)
    (secret body sig : String) (i : Nat) (c d : Char)
    (hsec : secret ≠ "")
    (hvalid : (verify_webhook_signature hmacHex secret body sig).valid = true)
    (hget : sig.toList.get? i = some d) (hne : c ≠ d) :
    verify_webhook_signature hmacHex secret body sig =
      verify_webhook_signature hmacHex secret body sig ∧
    (verify_webhook_signature hmacHex secret body
        (String.mk (sig.toList.set i c))).valid = false := by
  refine ⟨rfl, ?_⟩
  have hvalid' : (hmacHex secret body == sig) = true := by
    unfold verify_webhook_signature at hvalid
    rw [if_neg hsec] at hvalid
    exact hvalid
  have hsig : hmacHex secret body = sig := beq_iff_eq.mp hvalid'
  have hne' : String.mk (sig.toList.set i c) ≠ sig := by
    intro h
    have hdata : sig.toList.set i c = sig.toList := congrArg String.toList h
    exact set_ne_of_get_ne sig.toList i c d hget hne hdata
  unfold verify_webhook_signature
  rw [if_neg hsec]
  show (hmacHex secret body == String.mk (sig.toList.set i c)) = false
  rw [hsig]
  exact beq_eq_false_iff_ne.mpr fun h => hne' h.symm

/-- C6 amended witness at a concrete configured secret: the valid
signature for body "x" under secret "k" is "k|x"; flipping its first
character to 'a' makes verification fail. -/
theorem verify_deterministic_flip_witness :
    (verify_webhook_signature hmC "k" "x" "k|x").valid = true ∧
    (verify_webhook_signature hmC "k" "x"
        (String.mk ("k|x".toList.set 0 'a'))).valid = false :=
  ⟨by decide,
   (verify_deterministic_flip hmC "k" "x" "k|x" 0 'a' 'k'
      (by decide) (by decide) (by decide) (by decide)).2⟩

/-- C1: a payment already SUCCEEDED short-circuits: `check_payment`
returns the stored record unchanged with the store untouched, for every
environment (so no gateway fetch and no grant can influence the
result), and `handle_webhook` on a payload naming that payment returns
the same record with the store untouched. -/
theorem checkPayment_succeeded_noop
    (env : Env) (store : List Payment) (pid : String) (p : Payment)
    (hmacHex : String → String → String) (secret body : String)
    (hfind : findPayment store pid = some p)
    (hs : p.status = .SUCCEEDED)
    (hpid : pid ≠ "") :
    check_payment env store pid = .ok (store, p) ∧
    handle_webhook hmacHex secret env store
        { object_id := some pid, body := body } none =
      (store, some p) := by
  have h1 : check_payment env store pid = .ok (store, p) := by
    unfold check_payment
    rw [hfind]
    simp [hs]
  refine ⟨h1, ?_⟩
  unfold handle_webhook webhookSigRejected webhookPaymentId
  simp [hpid, h1]

/-- C1 witness: concrete SUCCEEDED row, an environment whose gateway
reports "succeeded" and whose grantor raises on every call: the row is
returned untouched by both entry points. -/
theorem checkPayment_succeeded_noop_witness :
    check_payment envGrantFail [pSucceeded] "p1" = .ok ([pSucceeded], pSucceeded) ∧
    handle_webhook hmC "k" envGrantFail [pSucceeded]
        { object_id := some "p1", body := "b" } none =
      ([pSucceeded], some pSucceeded) :=
  checkPayment_succeeded_noop envGrantFail [pSucceeded] "p1" pSucceeded hmC "k" "b"
    (by decide) (by decide) (by decide)

/-- C2 counterexample: the gateway reports "succeeded" for a pending
row whose user row is missing: no grant is performed at all (the
environment's grantor raises on every call, so a performed grant would
have aborted the pass), yet the SUCCEEDED transition is committed —
refuting "the grant is performed before the new status is committed"
as stated over all reachable states. -/
theorem checkPayment_grant_atomicity_cex :
    envNoUser.grant 7 .PRO 30 = .error "grant failed" ∧
    check_payment envNoUser [pPending] "p1" =
      .ok ([{ pPending with
              status := .SUCCEEDED
              processed_at := some 42
              error_message := none }],
           { pPending with
             status := .SUCCEEDED
             processed_at := some 42
             error_message := none }) :=
  ⟨rfl, rfl⟩

/-- C2 amended: when the fetched gateway status maps to SUCCEEDED for a
not-yet-succeeded row, and the local user row exists and the stored
tier string parses, the 30-day grant at the Payment's tier is performed
before the status commit: a raising grant aborts the pass with the
store untouched, and a succeeding grant is followed by the SUCCEEDED
commit. -/
theorem checkPayment_grant_atomicity
    (env : Env) (store : List Payment) (pid : String) (p : Payment)
    (resp : GatewayRecord) (u : Nat) (tier : SubscriptionTier)
    (hfind : findPayment store pid = some p)
    (hns : p.status ≠ .SUCCEEDED)
    (hfetch : env.find_one pid = .ok resp)
    (hmap : _map_status resp.status = .SUCCEEDED)
    (huser : env.findUser p.user_id = some u)
    (htier : subscriptionTierOfValue? p.subscription_tier = some tier) :
    (∀ e, env.grant u tier 30 = .error e →
        check_payment env store pid = .error (.grantError e)) ∧
    (env.grant u tier 30 = .ok () →
        check_payment env store pid =
          .ok (storeUpdate store pid
                 { p with
                   status := .SUCCEEDED
                   processed_at := some env.now
                   error_message := resp.cancellation_reason },
               { p with
                 status := .SUCCEEDED
                 processed_at := some env.now
                 error_message := resp.cancellation_reason })) := by
  constructor
  · intro e hg
    unfold check_payment
    rw [hfind]
    simp [hns, hfetch, hmap, huser, htier, hg]
  · intro hg
    unfold check_payment
    rw [hfind]
    simp [hns, hfetch, hmap, huser, htier, hg]

/-- C2 amended witness: concrete pending PRO row with an existing user;
under a raising grantor the pass aborts with the grant error, and under
a succeeding grantor the row is committed SUCCEEDED. -/
theorem checkPayment_grant_atomicity_witness :
    check_payment envGrantFail [pPending] "p1" = .error (.grantError "grant failed") ∧
    check_payment envSucceeded [pPending] "p1" =
      .ok ([{ pPending with
              status := .SUCCEEDED
              processed_at := some 42
              error_message := none }],
           { pPending with
             status := .SUCCEEDED
             processed_at := some 42
             error_message := none }) := by
  constructor
  · exact (checkPayment_grant_atomicity envGrantFail [pPending] "p1" pPending
      { status := "succeeded" } 7 .PRO (by decide) (by decide) rfl (by decide)
      rfl (by decide)).1 "grant failed" rfl
  · have := (checkPayment_grant_atomicity envSucceeded [pPending] "p1" pPending
      { status := "succeeded" } 7 .PRO (by decide) (by decide) rfl (by decide)
      rfl (by decide)).2 rfl
    simpa [storeUpdate, pPending, envSucceeded, envBase] using this

/-- C3 counterexample: CANCELED is not terminal in the code: for a
CANCELED row, a reconciliation pass with the gateway reporting
"pending" moves the row back to PENDING. -/
theorem checkPayment_canceled_terminal_cex :
    pCanceled.status = .CANCELED ∧
    check_payment envBase [pCanceled] "p1" =
      .ok ([{ pCanceled with
              status := .PENDING
              processed_at := some 42
              error_message := none }],
           { pCanceled with
             status := .PENDING
             processed_at := some 42
             error_message := none }) :=
  ⟨rfl, rfl⟩

/-- C3 amended: only SUCCEEDED is a terminal no-op: a Payment whose
local status is CANCELED is re-fetched by every reconciliation pass
and its status is overwritten with the freshly mapped gateway status,
which can move it out of CANCELED. -/
theorem checkPayment_canceled_refetched
    (env : Env) (store : List Payment) (pid : String) (p : Payment)
    (resp : GatewayRecord)
    (hfind : findPayment store pid = some p)
    (hc : p.status = .CANCELED)
    (hfetch : env.find_one pid = .ok resp)
    (hmap : _map_status resp.status ≠ .SUCCEEDED) :
    check_payment env store pid =
      .ok (storeUpdate store pid
             { p with
               status := _map_status resp.status
               processed_at := some env.now
               error_message := resp.cancellation_reason },
           { p with
             status := _map_status resp.status
             processed_at := some env.now
             error_message := resp.cancellation_reason }) := by
  unfold check_payment
  rw [hfind]
  simp [hc, hfetch, hmap]

/-- C3 amended witness: the concrete CANCELED row of the counterexample
moves back to PENDING. -/
theorem checkPayment_canceled_refetched_witness :
    check_payment envBase [pCanceled] "p1" =
      .ok ([{ pCanceled with
              status := .PENDING
              processed_at := some 42
              error_message := none }],
           { pCanceled with
             status := .PENDING
             processed_at := some 42
             error_message := none }) := by
  have := checkPayment_canceled_refetched envBase [pCanceled] "p1" pCanceled
    { status := "pending" } (by decide) (by decide) rfl (by decide)
  simpa [storeUpdate, pCanceled, pPending, envBase] using this

/-- C5 counterexample: with a configured secret, the empty-string
signature fails verification yet `handle_webhook` does not reject it
(Python truthiness treats it as absent): the webhook is processed and
the payment returned.  Likewise an object.id that is present but empty
is treated as missing: the webhook is ignored although a row with that
gateway id exists and the delegated `check_payment` would return it. -/
theorem handleWebhook_null_cases_cex :
    (verify_webhook_signature hmC "k" "b" "").valid = false ∧
    handle_webhook hmC "k" envGrantFail [pSucceeded]
        { object_id := some "p1", body := "b" } (some "") =
      ([pSucceeded], some pSucceeded) ∧
    check_payment envBase [pEmptyId] "" =
      .ok ([{ pEmptyId with
              status := .PENDING
              processed_at := some 42
              error_message := none }],
           { pEmptyId with
             status := .PENDING
             processed_at := some 42
             error_message := none }) ∧
    handle_webhook hmC "k" envBase [pEmptyId]
        { object_id := some "", body := "b" } none =
      ([pEmptyId], none) :=
  ⟨by decide, rfl, rfl, rfl⟩

/-- C5 amended: `handle_webhook` is a total function (every exception
of the delegated `check_payment` is caught): it returns null with the
store unmutated when a supplied non-empty signature fails verification,
when the extracted object.id is missing or empty, or when the delegated
`check_payment` raises; otherwise it returns `check_payment`'s result.
An empty-string signature skips verification and an empty object.id
counts as missing (Python truthiness). -/
theorem handleWebhook_null_cases
    (hmacHex : String → String → String) (secret : String) (env : Env)
    (store : List Payment) (payload : WebhookPayload) (sig : Option String) :
    (∀ s, sig = some s → s ≠ "" →
        (verify_webhook_signature hmacHex secret payload.body s).valid = false →
        handle_webhook hmacHex secret env store payload sig = (store, none)) ∧
    (webhookSigRejected hmacHex secret payload sig = false →
        webhookPaymentId payload = "" →
        handle_webhook hmacHex secret env store payload sig = (store, none)) ∧
    (∀ e, webhookSigRejected hmacHex secret payload sig = false →
        webhookPaymentId payload ≠ "" →
        check_payment env store (webhookPaymentId payload) = .error e →
        handle_webhook hmacHex secret env store payload sig = (store, none)) ∧
    (∀ st p, webhookSigRejected hmacHex secret payload sig = false →
        webhookPaymentId payload ≠ "" →
        check_payment env store (webhookPaymentId payload) = .ok (st, p) →
        handle_webhook hmacHex secret env store payload sig = (st, some p)) := by
  refine ⟨?_, ?_, ?_, ?_⟩
  · intro s hs hne hv
    subst hs
    unfold handle_webhook webhookSigRejected
    simp [hne, hv]
  · intro hrej hid
    unfold handle_webhook
    rw [hrej]
    simp [hid]
  · intro e hrej hid hcp
    unfold handle_webhook
    rw [hrej]
    simp [hid, hcp]
  · intro st p hrej hid hcp
    unfold handle_webhook
    rw [hrej]
    simp [hid, hcp]

/-- C5 amended witness: a correctly signed webhook for an already
SUCCEEDED payment is processed and returns the stored row. -/
theorem handleWebhook_null_cases_witness :
    handle_webhook hmC "k" envGrantFail [pSucceeded]
        { object_id := some "p1", body := "b" } (some "k|b") =
      ([pSucceeded], some pSucceeded) :=
  (handleWebhook_null_cases hmC "k" envGrantFail [pSucceeded]
      { object_id := some "p1", body := "b" } (some "k|b")).2.2.2
    [pSucceeded] pSucceeded (by decide) (by decide) rfl

/-- C8: a non-positive configured tier price makes `create_payment`
fail with the invalid-amount error for every possible gateway outcome
(the result does not depend on the gateway call), and no Payment is
persisted: the error result carries no store change. -/
theorem createPayment_invalid_price
    (settings : Settings) (store : List Payment) (user_id : Nat)
    (tier : SubscriptionTier)
    (h : _get_tier_price_rubles settings tier ≤ 0) :
    ∀ createResult, create_payment settings createResult store user_id tier =
      .error (.invalidAmount tier.value) := by
  intro g
  unfold create_payment
  simp [h]

/-- C8 witness: the FREE tier has no configured price (0 rubles), so
creation fails with the invalid-amount error even though the gateway
would have answered successfully. -/
theorem createPayment_invalid_price_witness :
    create_payment ⟨500, 1000, "k"⟩
        (.ok { id := "g1", status := "pending", confirmation_url := "https://c" })
        [] 7 .FREE =
      .error (.invalidAmount "free") :=
  createPayment_invalid_price ⟨500, 1000, "k"⟩ [] 7 .FREE (by decide)
    (.ok { id := "g1", status := "pending", confirmation_url := "https://c" })

/-- C9: successful creation persists exactly one new Payment whose
amount in kopecks is the locally configured ruble price times 100
(never the gateway's amount, which is ignored), whose status is the
mapped gateway-reported initial status, and which carries the returned
confirmation URL. -/
theorem createPayment_success_fields
    (settings : Settings) (store : List Payment) (user_id : Nat)
    (tier : SubscriptionTier) (resp : CreateRecord)
    (h : 0 < _get_tier_price_rubles settings tier) :
    create_payment settings (.ok resp) store user_id tier =
      .ok (store ++
             [{ user_id := user_id
                yookassa_payment_id := resp.id
                subscription_tier := tier.value
                amount := _get_tier_price_rubles settings tier * 100
                status := _map_status resp.status
                description := paymentDescription tier user_id
                confirmation_url := some resp.confirmation_url }],
           { user_id := user_id
             yookassa_payment_id := resp.id
             subscription_tier := tier.value
             amount := _get_tier_price_rubles settings tier * 100
             status := _map_status resp.status
             description := paymentDescription tier user_id
             confirmation_url := some resp.confirmation_url }) := by
  have h' : ¬ _get_tier_price_rubles settings tier ≤ 0 := not_le.mpr h
  unfold create_payment
  simp [h']

/-- C9 witness: the spec scenario: tier PRO at 500 rubles with the
gateway reporting amount 12345 and status "pending" persists amount
50000 kopecks, status PENDING and the confirmation URL. -/
theorem createPayment_success_fields_witness :
    create_payment ⟨500, 1000, "k"⟩
        (.ok { id := "g1", status := "pending",
               confirmation_url := "https://c", amount := 12345 })
        [] 7 .PRO =
      .ok ([{ user_id := 7, yookassa_payment_id := "g1",
              subscription_tier := "pro", amount := 50000,
              status := .PENDING,
              description := paymentDescription .PRO 7,
              confirmation_url := some "https://c" }],
           { user_id := 7, yookassa_payment_id := "g1",
             subscription_tier := "pro", amount := 50000,
             status := .PENDING,
             description := paymentDescription .PRO 7,
             confirmation_url := some "https://c" }) := by
  have := createPayment_success_fields ⟨500, 1000, "k"⟩ [] 7 .PRO
    { id := "g1", status := "pending", confirmation_url := "https://c",
      amount := 12345 } (by decide)
  simpa [_get_tier_price_rubles, _map_status, paymentStatusOfValue?] using this

/-- C10: when the fetched gateway status maps to SUCCEEDED for a
not-yet-succeeded row but the local user row is missing, the grant is
silently skipped (the result never consults the grantor) while the
SUCCEEDED transition is committed anyway, with no error raised. -/
theorem checkPayment_missing_user_skips_grant
    (env : Env) (store : List Payment) (pid : String) (p : Payment)
    (resp : GatewayRecord)
    (hfind : findPayment store pid = some p)
    (hns : p.status ≠ .SUCCEEDED)
    (hfetch : env.find_one pid = .ok resp)
    (hmap : _map_status resp.status = .SUCCEEDED)
    (huser : env.findUser p.user_id = none) :
    check_payment env store pid =
      .ok (storeUpdate store pid
             { p with
               status := .SUCCEEDED
               processed_at := some env.now
               error_message := resp.cancellation_reason },
           { p with
             status := .SUCCEEDED
             processed_at := some env.now
             error_message := resp.cancellation_reason }) := by
  unfold check_payment
  rw [hfind]
  simp [hns, hfetch, hmap, huser]

/-- C10 witness: the concrete pending PRO row with its user row missing
and a grantor that would raise if invoked: the pass succeeds and
commits SUCCEEDED. -/
theorem checkPayment_missing_user_skips_grant_witness :
    check_payment envNoUser [pPending] "p1" =
      .ok ([{ pPending with
              status := .SUCCEEDED
              processed_at := some 42
              error_message := none }],
           { pPending with
             status := .SUCCEEDED
             processed_at := some 42
             error_message := none }) := by
  have := checkPayment_missing_user_skips_grant envNoUser [pPending] "p1"
    pPending { status := "succeeded" } (by decide) (by decide) rfl (by decide) rfl
  simpa [storeUpdate, pPending, envNoUser, envGrantFail, envSucceeded, envBase]
    using this

end YooKassa
